import Mathlib

/-!
Shallow embedding of `shot_value.py` (NBA play-by-play shot-value analysis).

Tables are lists of sparse rows; a pandas `NaN` cell is `none`.  The pandas
comparison semantics are preserved: `NaN == x` is false, `NaN != x` is true,
and any order comparison against `NaN` is false.  The per-season bodies of the
source loops are modelled directly; the source maps them over the list of
season tables.
-/

namespace ShotValue

/-- One row of a play-by-play table.  Columns are those the source reads;
a missing (NaN) cell is `none`.  The filtered table of `clean_data` keeps the
first seven columns (positions 0-6, as used by `iloc` in `calc_rebs`). -/
structure Row where
  shooter : Option String
  shotType : Option String
  shotOutcome : Option String
  shotDist : Option ℚ
  rebounder : Option String
  reboundType : Option String
  secLeft : Option ℚ
  turnoverType : Option String
  freeThrowNum : Option String
  freeThrowOutcome : Option String
  awayPlay : Option String
  awayScore : Option ℤ
  homeScore : Option ℤ
deriving DecidableEq

/-- A row with every cell missing. -/
def emptyRow : Row :=
  ⟨none, none, none, none, none, none, none, none, none, none, none, none, none⟩

/-- `matchFront p s` is true when `p` is an initial segment of `s`. -/
def matchFront : List Char → List Char → Bool
  | [], _ => true
  | _ :: _, [] => false
  | a :: as, b :: bs => a == b && matchFront as bs

/-- `hasSub p s` is true when `p` occurs contiguously inside `s`
(Python's `in` / pandas `str.contains` on a plain pattern). -/
def hasSub (p : List Char) : List Char → Bool
  | [] => matchFront p []
  | a :: rest => matchFront p (a :: rest) || hasSub p rest

/-- Pandas `series == s`: `NaN` compares unequal. -/
def optEq (x : Option String) (s : String) : Bool := x == some s

/-- Pandas `series <= q`: comparison against `NaN` is false. -/
def optLe (x : Option ℚ) (q : ℚ) : Bool :=
  match x with
  | some d => decide (d ≤ q)
  | none => false

/-- Pandas `series > q`: comparison against `NaN` is false. -/
def optGt (x : Option ℚ) (q : ℚ) : Bool :=
  match x with
  | some d => decide (q < d)
  | none => false

/-- Pandas `series != 0`: `NaN != 0` is true. -/
def optNe0 (x : Option ℚ) : Bool :=
  match x with
  | some d => decide (d ≠ 0)
  | none => true

/-- Pandas `str.contains(t, na=False)`: substring match, `NaN` gives false. -/
def optContains (x : Option String) (t : String) : Bool :=
  match x with
  | some s => hasSub t.toList s.toList
  | none => false

/-- The tag test `'2-pt' in shot_type`. -/
def contains2 (t : String) : Bool := hasSub "2-pt".toList t.toList

/-- The tag test `'3-pt' in shot_type`. -/
def contains3 (t : String) : Bool := hasSub "3-pt".toList t.toList

/-- Number of populated cells among the seven columns kept by `clean_data`
(pandas `dropna(thresh=2)` counts non-null cells of the projected row). -/
def popCount (r : Row) : Nat :=
  r.shooter.isSome.toNat + r.shotType.isSome.toNat + r.shotOutcome.isSome.toNat +
  r.shotDist.isSome.toNat + r.rebounder.isSome.toNat + r.reboundType.isSome.toNat +
  r.secLeft.isSome.toNat

/-- `clean_data`: project to the seven shot/rebound columns, drop rows with
fewer than two populated cells, then optionally keep rows whose shooter or
rebounder contains the team token ('ALL' is the no-filter sentinel). -/
def clean_data (data : List Row) (team : String) : List Row :=
  let filtered := data.filter fun r => decide (2 ≤ popCount r)
  if team = "ALL" then filtered
  else filtered.filter fun r => optContains r.shooter team || optContains r.rebounder team

/-- Rows counted by `poss_data` in `calc_ppp`: shooter populated, or turnover
type populated, or a free throw labelled '1 of 2' or '1 of 3'. -/
def isPossRow (r : Row) : Bool :=
  r.shooter.isSome || r.turnoverType.isSome ||
  optEq r.freeThrowNum "1 of 2" || optEq r.freeThrowNum "1 of 3"

/-- Rows counted by `orbs_data` in `calc_ppp`: offensive rebound with
seconds-remaining `!= 0` (pandas: a missing `SecLeft` also passes `!= 0`). -/
def isOrbRow (r : Row) : Bool :=
  optEq r.reboundType "offensive" && optNe0 r.secLeft

/-- Rows counted by `ft_orbs_data` in `calc_ppp`: a missed free throw whose
label is '1 of 2', '1 of 3' or '2 of 3'. -/
def isFtOrbRow (r : Row) : Bool :=
  optEq r.freeThrowOutcome "miss" &&
  (optEq r.freeThrowNum "1 of 2" || optEq r.freeThrowNum "1 of 3" ||
   optEq r.freeThrowNum "2 of 3")

/-- `pts` in `calc_ppp`: away plus home scores summed over the
'End of Game' sentinel rows (pandas `sum` skips missing cells). -/
def pts (data : List Row) : ℤ :=
  ((data.filter fun r => optEq r.awayPlay "End of Game").map
    fun r => r.awayScore.getD 0 + r.homeScore.getD 0).sum

/-- `total_orbs` in `calc_ppp`: `len(orbs_data) - len(ft_orbs_data)`
(a Python int, so it may be negative). -/
def total_orbs (data : List Row) : ℤ :=
  (data.countP isOrbRow : ℤ) - (data.countP isFtOrbRow : ℤ)

/-- `total_poss` in `calc_ppp`: `len(poss_data) - total_orbs`. -/
def total_poss (data : List Row) : ℤ :=
  (data.countP isPossRow : ℤ) - total_orbs data

/-- `calc_ppp`: points divided by total possessions.  The source divides
without a guard; with a zero denominator Python/numpy silently yields a
non-finite float, modelled here as `none`. -/
def calc_ppp (data : List Row) : Option ℚ :=
  if total_poss data = 0 then none
  else some ((pts data : ℚ) / (total_poss data : ℚ))

/-- The seven shot categories of `calc_shots` / `calc_rebs`, in the order the
source dictionaries enumerate them. -/
inductive Cat
  | c2p0_5
  | c2p6_10
  | c2p11_15
  | c2p15p
  | c3p25m
  | c3p26_30
  | c3p30p
deriving DecidableEq

/-- The seven categories in source order. -/
def Cat.all : List Cat :=
  [.c2p0_5, .c2p6_10, .c2p11_15, .c2p15p, .c3p25m, .c3p26_30, .c3p30p]

/-- The row filter `calc_shots` uses for each category.  Note that only the
`2-pt >15 ft` and `3-pt <26 ft` filters consult the shot-type tag; the other
five are pure distance windows. -/
def catFilter : Cat → Row → Bool
  | .c2p0_5, r => optLe r.shotDist 5
  | .c2p6_10, r => optGt r.shotDist 5 && optLe r.shotDist 10
  | .c2p11_15, r => optGt r.shotDist 10 && optLe r.shotDist 15
  | .c2p15p, r => optContains r.shotType "2-pt" && optGt r.shotDist 15
  | .c3p25m, r => optContains r.shotType "3-pt" && optLe r.shotDist 25
  | .c3p26_30, r => optGt r.shotDist 25 && optLe r.shotDist 30
  | .c3p30p, r => optGt r.shotDist 30

/-- Attempts tally of `calc_shots` for one category: the size of the
category-filtered subtable. -/
def attempts (year : List Row) (c : Cat) : Nat :=
  (year.filter (catFilter c ·)).length

/-- Makes tally of `calc_shots` for one category: rows of the
category-filtered subtable whose outcome is 'make'. -/
def makes (year : List Row) (c : Cat) : Nat :=
  ((year.filter (catFilter c ·)).filter fun r => optEq r.shotOutcome "make").length

/-- Per-season body of `calc_shots`: the `(attempts, makes)` pair of one
category (the source maps this over its list of season tables). -/
def calc_shots (year : List Row) (c : Cat) : Nat × Nat :=
  (attempts year c, makes year c)

/-- Sum of the attempts tallies over the seven categories. -/
def totalAttempts (year : List Row) : Nat :=
  (Cat.all.map fun c => attempts year c).sum

/-- Number of rows with a populated shot outcome. -/
def outcomeCount (year : List Row) : Nat :=
  year.countP fun r => r.shotOutcome.isSome

/-- Categories in whose attempts tally a row is counted when binned alone. -/
def assignedCats (r : Row) : List Cat :=
  Cat.all.filter fun c => decide (attempts [r] c ≠ 0)

/-- The per-category rebound counters of `calc_rebs`, in source order. -/
structure RebTally where
  r05 : Nat
  r610 : Nat
  r1115 : Nat
  r15p : Nat
  r25m : Nat
  r2630 : Nat
  r30p : Nat
deriving DecidableEq

/-- The all-zero rebound tally `calc_rebs` starts from. -/
def RebTally.zero : RebTally := ⟨0, 0, 0, 0, 0, 0, 0⟩

/-- Counter of one category. -/
def RebTally.get : RebTally → Cat → Nat
  | t, .c2p0_5 => t.r05
  | t, .c2p6_10 => t.r610
  | t, .c2p11_15 => t.r1115
  | t, .c2p15p => t.r15p
  | t, .c3p25m => t.r25m
  | t, .c3p26_30 => t.r2630
  | t, .c3p30p => t.r30p

/-- Add `k` to one category's counter. -/
def RebTally.bump (t : RebTally) (c : Cat) (k : Nat) : RebTally :=
  match c with
  | .c2p0_5 => { t with r05 := t.r05 + k }
  | .c2p6_10 => { t with r610 := t.r610 + k }
  | .c2p11_15 => { t with r1115 := t.r1115 + k }
  | .c2p15p => { t with r15p := t.r15p + k }
  | .c3p25m => { t with r25m := t.r25m + k }
  | .c3p26_30 => { t with r2630 := t.r2630 + k }
  | .c3p30p => { t with r30p := t.r30p + k }

/-- The `if/elif` category chain of `calc_rebs` (lines 125-138).  `none`
models the `TypeError` Python raises when the chain reaches
`'2-pt' in shot_type` with a missing (`NaN`) shot type. -/
def rebCat (shotType : Option String) (shotDist : Option ℚ) : Option Cat :=
  if optLe shotDist 5 then some .c2p0_5
  else if optLe shotDist 10 then some .c2p6_10
  else if optLe shotDist 15 then some .c2p11_15
  else if shotType = none then none
  else if optContains shotType "2-pt" then some .c2p15p
  else if optLe shotDist 25 then some .c3p25m
  else if optLe shotDist 30 then some .c3p26_30
  else some .c3p30p

/-- The row scan of `calc_rebs`: for each row whose outcome is 'miss',
inspect the immediately following row; if it is an offensive rebound with
seconds-remaining `!= 0`, add one to the missed shot's chain category.
`none` models the faults of the source: the unguarded `iloc[i + 1]` when the
miss is the last row (`IndexError`), and a missing shot type reaching the
chain's tag test (`TypeError`). -/
def calcRebsGo : List Row → RebTally → Option RebTally
  | [], acc => some acc
  | r :: rest, acc =>
    if optEq r.shotOutcome "miss" then
      match rest with
      | [] => none
      | next :: _ =>
        let offReb : Nat :=
          if optEq next.reboundType "offensive" && optNe0 next.secLeft then 1 else 0
        match rebCat r.shotType r.shotDist with
        | none => none
        | some c => calcRebsGo rest (acc.bump c offReb)
    else calcRebsGo rest acc

/-- Per-season body of `calc_rebs` (the source maps it over seasons). -/
def calc_rebs (year : List Row) : Option RebTally :=
  calcRebsGo year RebTally.zero

/-- Point value of a category: 2 for the `2-pt` bins, 3 for the `3-pt` bins. -/
def catValue : Cat → ℚ
  | .c2p0_5 => 2
  | .c2p6_10 => 2
  | .c2p11_15 => 2
  | .c2p15p => 2
  | .c3p25m => 3
  | .c3p26_30 => 3
  | .c3p30p => 3

/-- Per-season, per-category body of `calc_exp_pts`: point value times make
rate.  The source divides `makes / attempts` without a guard; with zero
attempts numpy silently yields a non-finite float, modelled as `none`. -/
def calc_exp_pts (year : List Row) (c : Cat) : Option ℚ :=
  if attempts year c = 0 then none
  else some (catValue c * (makes year c : ℚ) / (attempts year c : ℚ))

/-- Per-season, per-category body of `calc_exp_pts_w_orb`: point value times
make rate plus offensive-rebound rate times season PPP.  Zero attempts is the
same unguarded division, modelled as `none`. -/
def calc_exp_pts_w_orb (year : List Row) (rebs : RebTally) (ppp : ℚ) (c : Cat) :
    Option ℚ :=
  if attempts year c = 0 then none
  else some (catValue c * (makes year c : ℚ) / (attempts year c : ℚ) +
    (rebs.get c : ℚ) / (attempts year c : ℚ) * ppp)

lemma optContains_2pt (t : String) : optContains (some t) "2-pt" = contains2 t := rfl

lemma optContains_3pt (t : String) : optContains (some t) "3-pt" = contains3 t := rfl

/-- A tag/distance pair whose distance range is consistent with its value
tag: a `2-pt` tag within 25 ft, or a `3-pt` tag beyond 15 ft. -/
def consistentTag (t : String) (d : ℚ) : Prop :=
  (contains2 t = true ∧ contains3 t = false ∧ d ≤ 25) ∨
  (contains3 t = true ∧ contains2 t = false ∧ 15 < d)

/-- Executable form of `consistentTag` for a row's own tag and distance. -/
def consistentShotB (r : Row) : Bool :=
  match r.shotType, r.shotDist with
  | some t, some d =>
    (contains2 t && !(contains3 t) && decide (d ≤ 25)) ||
    (contains3 t && !(contains2 t) && decide (15 < d))
  | _, _ => false

/-- A shot-event row: populated shooter, tag and outcome, at a distance. -/
def mkShotRow (t : String) (d : ℚ) : Row :=
  { emptyRow with
    shooter := some "A. Shooter"
    shotType := some t
    shotOutcome := some "make"
    shotDist := some d }

lemma attempts_nil (c : Cat) : attempts [] c = 0 := rfl

lemma attempts_cons (r : Row) (l : List Row) (c : Cat) :
    attempts (r :: l) c = (if catFilter c r then 1 else 0) + attempts l c := by
  simp only [attempts, List.filter_cons]
  split
  · simp
    omega
  · simp

lemma attempts_singleton (r : Row) (c : Cat) :
    attempts [r] c = if catFilter c r then 1 else 0 := by
  rw [attempts_cons, attempts_nil]
  omega

lemma assignedCats_eq (r : Row) :
    assignedCats r = Cat.all.filter fun c => catFilter c r := by
  unfold assignedCats
  refine List.filter_congr fun c _ => ?_
  cases h : catFilter c r <;> simp [attempts_singleton, h]

lemma catFilter_dist_none (r : Row) (h : r.shotDist = none) (c : Cat) :
    catFilter c r = false := by
  cases c <;> simp [catFilter, optLe, optGt, h]

lemma consistentShotB_spec (r : Row) (h : consistentShotB r = true) :
    ∃ t d, r.shotType = some t ∧ r.shotDist = some d ∧ consistentTag t d := by
  unfold consistentShotB at h
  cases ht : r.shotType with
  | none => rw [ht] at h; cases h
  | some t =>
    cases hd : r.shotDist with
    | none => rw [ht, hd] at h; cases h
    | some d =>
      rw [ht, hd] at h
      refine ⟨t, d, rfl, rfl, ?_⟩
      simp only [Bool.or_eq_true, Bool.and_eq_true, Bool.not_eq_true',
        decide_eq_true_eq] at h
      rcases h with ⟨⟨h1, h2⟩, h3⟩ | ⟨⟨h1, h2⟩, h3⟩
      · exact Or.inl ⟨h1, h2, h3⟩
      · exact Or.inr ⟨h1, h2, h3⟩

/-- For a tag/distance pair consistent with its value tag, the binner's seven
filters select exactly one category, and the `calc_rebs` chain picks that same
category. -/
lemma consistent_unique (r : Row) (t : String) (d : ℚ)
    (ht : r.shotType = some t) (hd : r.shotDist = some d)
    (h : consistentTag t d) :
    ∃ c : Cat, (Cat.all.filter fun c => catFilter c r) = [c] ∧
      rebCat (some t) (some d) = some c := by
  rcases h with ⟨h2, h3, h25⟩ | ⟨h3, h2, h15⟩
  · rcases le_or_lt d 5 with h5 | h5
    · refine ⟨.c2p0_5, ?_, ?_⟩
      · simp [Cat.all, catFilter, optLe, optGt, optContains_2pt, optContains_3pt,
          ht, hd, h2, h3, h5, show ¬(5 < d) by linarith, show ¬(10 < d) by linarith,
          show ¬(15 < d) by linarith, show ¬(25 < d) by linarith,
          show ¬(30 < d) by linarith]
      · simp [rebCat, optLe, h5]
    · rcases le_or_lt d 10 with h10 | h10
      · refine ⟨.c2p6_10, ?_, ?_⟩
        · simp [Cat.all, catFilter, optLe, optGt, optContains_2pt, optContains_3pt,
            ht, hd, h2, h3, h5, h10, show ¬(d ≤ 5) by linarith,
            show ¬(10 < d) by linarith, show ¬(15 < d) by linarith,
            show ¬(25 < d) by linarith, show ¬(30 < d) by linarith]
        · simp [rebCat, optLe, h10, show ¬(d ≤ 5) by linarith]
      · rcases le_or_lt d 15 with h15 | h15
        · refine ⟨.c2p11_15, ?_, ?_⟩
          · simp [Cat.all, catFilter, optLe, optGt, optContains_2pt,
              optContains_3pt, ht, hd, h2, h3, h10, h15, show ¬(d ≤ 5) by linarith,
              show ¬(d ≤ 10) by linarith, show ¬(15 < d) by linarith,
              show ¬(25 < d) by linarith, show ¬(30 < d) by linarith]
          · simp [rebCat, optLe, h15, show ¬(d ≤ 5) by linarith,
              show ¬(d ≤ 10) by linarith]
        · refine ⟨.c2p15p, ?_, ?_⟩
          · simp [Cat.all, catFilter, optLe, optGt, optContains_2pt,
              optContains_3pt, ht, hd, h2, h3, h15, h25, show ¬(d ≤ 5) by linarith,
              show ¬(d ≤ 10) by linarith, show ¬(d ≤ 15) by linarith,
              show ¬(25 < d) by linarith, show ¬(30 < d) by linarith]
          · simp [rebCat, optLe, optContains_2pt, h2, show ¬(d ≤ 5) by linarith,
              show ¬(d ≤ 10) by linarith, show ¬(d ≤ 15) by linarith]
  · rcases le_or_lt d 25 with h25 | h25
    · refine ⟨.c3p25m, ?_, ?_⟩
      · simp [Cat.all, catFilter, optLe, optGt, optContains_2pt, optContains_3pt,
          ht, hd, h2, h3, h25, show ¬(d ≤ 5) by linarith,
          show ¬(d ≤ 10) by linarith, show ¬(d ≤ 15) by linarith,
          show ¬(25 < d) by linarith, show ¬(30 < d) by linarith]
      · simp [rebCat, optLe, optContains_2pt, h2, h25, show ¬(d ≤ 5) by linarith,
          show ¬(d ≤ 10) by linarith, show ¬(d ≤ 15) by linarith]
    · rcases le_or_lt d 30 with h30 | h30
      · refine ⟨.c3p26_30, ?_, ?_⟩
        · simp [Cat.all, catFilter, optLe, optGt, optContains_2pt,
            optContains_3pt, ht, hd, h2, h3, h25, h30, show ¬(d ≤ 5) by linarith,
            show ¬(d ≤ 10) by linarith, show ¬(d ≤ 15) by linarith,
            show ¬(d ≤ 25) by linarith, show ¬(30 < d) by linarith]
        · simp [rebCat, optLe, optContains_2pt, h2, h30, show ¬(d ≤ 5) by linarith,
            show ¬(d ≤ 10) by linarith, show ¬(d ≤ 15) by linarith,
            show ¬(d ≤ 25) by linarith]
      · refine ⟨.c3p30p, ?_, ?_⟩
        · simp [Cat.all, catFilter, optLe, optGt, optContains_2pt,
            optContains_3pt, ht, hd, h2, h3, h30, show ¬(d ≤ 5) by linarith,
            show ¬(d ≤ 10) by linarith, show ¬(d ≤ 15) by linarith,
            show ¬(d ≤ 25) by linarith, show ¬(d ≤ 30) by linarith]
        · simp [rebCat, optLe, optContains_2pt, h2, show ¬(d ≤ 5) by linarith,
            show ¬(d ≤ 10) by linarith, show ¬(d ≤ 15) by linarith,
            show ¬(d ≤ 25) by linarith, show ¬(d ≤ 30) by linarith]

lemma totalAttempts_nil : totalAttempts [] = 0 := rfl

lemma totalAttempts_cons (r : Row) (l : List Row) :
    totalAttempts (r :: l) =
      (Cat.all.countP fun c => catFilter c r) + totalAttempts l := by
  simp only [totalAttempts, Cat.all, List.map_cons, List.map_nil, List.sum_cons,
    List.sum_nil, attempts_cons, List.countP_cons, List.countP_nil]
  split_ifs <;> omega

lemma catCount_eq_one (r : Row) (t : String) (d : ℚ)
    (ht : r.shotType = some t) (hd : r.shotDist = some d)
    (h : consistentTag t d) :
    (Cat.all.countP fun c => catFilter c r) = 1 := by
  obtain ⟨c, hc, -⟩ := consistent_unique r t d ht hd h
  rw [List.countP_eq_length_filter, hc]
  rfl

lemma catCount_eq_zero (r : Row) (h : r.shotDist = none) :
    (Cat.all.countP fun c => catFilter c r) = 0 := by
  simp [Cat.all, List.countP_cons, catFilter_dist_none r h]

lemma RebTally.zero_get (c : Cat) : RebTally.zero.get c = 0 := by
  cases c <;> rfl

lemma RebTally.bump_get (tally : RebTally) (c c' : Cat) (k : Nat) :
    (tally.bump c k).get c' =
      if c' = c then tally.get c' + k else tally.get c' := by
  cases c <;> cases c' <;> simp [RebTally.bump, RebTally.get]

lemma countP_and_not (l : List Row) (p q : Row → Bool) :
    l.countP (fun r => p r && q r) + l.countP (fun r => p r && !(q r)) =
      l.countP p := by
  induction l with
  | nil => simp
  | cons a l ih =>
    simp only [List.countP_cons]
    cases hp : p a <;> cases hq : q a <;> simp [hp, hq] <;> omega

/-- Rows the per-miss scan of `calc_rebs` can credit soundly: a populated
distance and, in the window where the chain falls through to the `3-pt <26 ft`
bucket without a tag check (15 < d ≤ 25), a tag carrying a value token. -/
def missRowOk (r : Row) : Bool :=
  !(optEq r.shotOutcome "miss") ||
  (r.shotDist.isSome &&
    (!(optGt r.shotDist 15 && optLe r.shotDist 25) ||
     (r.shotType == none) ||
     optContains r.shotType "2-pt" || optContains r.shotType "3-pt"))

/-- The chain category of the per-miss scan satisfies the corresponding binner
filter, provided the row has a distance and, in the tag-free fall-through
window (15, 25], a value-tagged shot type. -/
lemma rebCat_filter_core (r : Row) (c : Cat) (d : ℚ)
    (hd : r.shotDist = some d)
    (htag : 15 < d → d ≤ 25 → ∀ t, r.shotType = some t →
      contains2 t = false → contains3 t = true)
    (hr : rebCat r.shotType r.shotDist = some c) :
    catFilter c r = true := by
  rw [hd] at hr
  unfold rebCat at hr
  by_cases h5 : d ≤ 5
  · rw [if_pos (by simp [optLe, h5])] at hr
    cases hr
    simp [catFilter, optLe, hd, h5]
  · rw [if_neg (by simp [optLe, h5])] at hr
    by_cases h10 : d ≤ 10
    · rw [if_pos (by simp [optLe, h10])] at hr
      cases hr
      simp [catFilter, optLe, optGt, hd, h10]
      linarith
    · rw [if_neg (by simp [optLe, h10])] at hr
      by_cases h15 : d ≤ 15
      · rw [if_pos (by simp [optLe, h15])] at hr
        cases hr
        simp [catFilter, optLe, optGt, hd, h15]
        linarith
      · rw [if_neg (by simp [optLe, h15])] at hr
        cases hty : r.shotType with
        | none =>
          rw [hty, if_pos rfl] at hr
          cases hr
        | some t =>
          rw [hty, if_neg (by simp)] at hr
          by_cases h2 : contains2 t = true
          · rw [if_pos (show optContains (some t) "2-pt" = true by
              rw [optContains_2pt]; exact h2)] at hr
            cases hr
            simp [catFilter, optGt, optContains_2pt, hty, hd, h2]
            linarith
          · have h2f : contains2 t = false := by
              cases hb : contains2 t
              · rfl
              · exact absurd hb h2
            rw [if_neg (show ¬optContains (some t) "2-pt" = true by
              rw [optContains_2pt]; exact h2)] at hr
            by_cases h25 : d ≤ 25
            · rw [if_pos (by simp [optLe, h25])] at hr
              cases hr
              have h3 : contains3 t = true :=
                htag (by linarith) h25 t hty h2f
              simp [catFilter, optLe, optContains_3pt, hty, hd, h25, h3]
            · rw [if_neg (by simp [optLe, h25])] at hr
              by_cases h30 : d ≤ 30
              · rw [if_pos (by simp [optLe, h30])] at hr
                cases hr
                simp [catFilter, optLe, optGt, hd, h30]
                linarith
              · rw [if_neg (by simp [optLe, h30])] at hr
                cases hr
                simp [catFilter, optGt, hd]
                linarith

/-- The chain category of a credited miss satisfies the corresponding binner
filter, given `missRowOk`. -/
lemma rebCat_filter (r : Row) (c : Cat)
    (hm : optEq r.shotOutcome "miss" = true)
    (hok : missRowOk r = true)
    (hr : rebCat r.shotType r.shotDist = some c) :
    catFilter c r = true := by
  unfold missRowOk at hok
  rw [hm] at hok
  simp only [Bool.not_true, Bool.false_or, Bool.and_eq_true] at hok
  obtain ⟨hds, hok⟩ := hok
  cases hd : r.shotDist with
  | none => rw [hd] at hds; cases hds
  | some d =>
    refine rebCat_filter_core r c d hd ?_ hr
    intro h15 h25 t hty h2f
    rw [hd, hty] at hok
    have e1 : optGt (some d) 15 = true := by
      simp [optGt]
      exact h15
    have e2 : optLe (some d) 25 = true := by
      simp [optLe]
      exact h25
    rw [e1, e2, optContains_2pt, optContains_3pt, h2f] at hok
    simpa using hok

/-- Each category counter `calc_rebs` produces is bounded by the number of
missed shots whose row satisfies that category's binner filter. -/
lemma calcRebsGo_le (year : List Row) : ∀ (acc out : RebTally) (c : Cat),
    calcRebsGo year acc = some out →
    (∀ r ∈ year, missRowOk r = true) →
    out.get c ≤ acc.get c +
      year.countP fun r => optEq r.shotOutcome "miss" && catFilter c r := by
  induction year with
  | nil =>
    intro acc out c h _
    simp only [calcRebsGo] at h
    cases h
    simp
  | cons r rest ih =>
    intro acc out c h hok
    rw [List.countP_cons]
    by_cases hm : optEq r.shotOutcome "miss" = true
    · cases rest with
      | nil => simp [calcRebsGo, hm] at h
      | cons next tail =>
        cases hcat : rebCat r.shotType r.shotDist with
        | none => simp [calcRebsGo, hm, hcat] at h
        | some c0 =>
          simp only [calcRebsGo, hm, if_true, hcat] at h
          have hle := ih _ out c h fun x hx => hok x (List.mem_cons_of_mem _ hx)
          have hfil := rebCat_filter r c0 hm (hok r (List.mem_cons_self r _)) hcat
          rw [RebTally.bump_get] at hle
          by_cases hcc : c = c0
          · subst hcc
            rw [if_pos rfl] at hle
            rw [hm, hfil]
            simp only [Bool.and_self, if_true]
            have hk : (if optEq next.reboundType "offensive" && optNe0 next.secLeft
                then 1 else 0) ≤ 1 := by split <;> omega
            omega
          · rw [if_neg hcc] at hle
            split <;> omega
    · simp only [calcRebsGo, hm, if_false, Bool.false_eq_true] at h
      have hle := ih acc out c h fun x hx => hok x (List.mem_cons_of_mem _ hx)
      have : optEq r.shotOutcome "miss" = false := by
        cases hval : optEq r.shotOutcome "miss"
        · rfl
        · exact absurd hval hm
      rw [this]
      simp only [Bool.false_and, if_neg (by simp : ¬(false = true))]
      omega

/-- A missed 2-pt shot at 3 ft. -/
def missRow2pt3 : Row :=
  { emptyRow with
    shooter := some "A. Player"
    shotType := some "2-pt layup"
    shotOutcome := some "miss"
    shotDist := some 3 }

/-- An offensive rebound with 45 seconds left in the period. -/
def orbRow45 : Row :=
  { emptyRow with
    rebounder := some "B. Player"
    reboundType := some "offensive"
    secLeft := some 45 }

/-- A missed 2-pt shot whose distance cell is missing. -/
def missNoDist : Row :=
  { emptyRow with
    shooter := some "A. Player"
    shotType := some "2-pt jump shot"
    shotOutcome := some "miss" }

/-- A made 2-pt shot at 2 ft. -/
def shotMakeRow : Row :=
  { emptyRow with
    shooter := some "C. Player"
    shotType := some "2-pt layup"
    shotOutcome := some "make"
    shotDist := some 2 }

/-- A turnover row. -/
def toRow : Row := { emptyRow with turnoverType := some "bad pass" }

/-- A missed free throw labelled '1 of 2'. -/
def ftMissRow : Row :=
  { emptyRow with
    freeThrowNum := some "1 of 2"
    freeThrowOutcome := some "miss" }

/-- A made free throw labelled '1 of 2'. -/
def ftMakeRow : Row :=
  { emptyRow with
    freeThrowNum := some "1 of 2"
    freeThrowOutcome := some "make" }

/-- An offensive rebound with 120 seconds left in the period. -/
def orb120 : Row :=
  { emptyRow with
    rebounder := some "D. Player"
    reboundType := some "offensive"
    secLeft := some 120 }

/-- An 'End of Game' sentinel row with final scores 100 and 90. -/
def endRow : Row :=
  { emptyRow with
    awayPlay := some "End of Game"
    awayScore := some 100
    homeScore := some 90 }

/-- A shot event in the data model's sense: shooter populated, no turnover,
free-throw or rebound fields. -/
def shotEv (r : Row) : Bool :=
  r.shooter.isSome && (r.turnoverType == none) && (r.freeThrowNum == none) &&
  (r.freeThrowOutcome == none) && (r.reboundType == none)

/-- A turnover event: turnover type populated, no shot, free-throw or rebound
fields. -/
def turnoverEv (r : Row) : Bool :=
  (r.shooter == none) && r.turnoverType.isSome && (r.freeThrowNum == none) &&
  (r.freeThrowOutcome == none) && (r.reboundType == none)

/-- A free-throw event labelled '1 of 2' (outcome unconstrained). -/
def ftTrip12Ev (r : Row) : Bool :=
  (r.shooter == none) && (r.turnoverType == none) &&
  (r.freeThrowNum == some "1 of 2") && (r.reboundType == none)

/-- An offensive-rebound event with 120 seconds remaining. -/
def orb120Ev (r : Row) : Bool :=
  (r.shooter == none) && (r.turnoverType == none) && (r.freeThrowNum == none) &&
  (r.freeThrowOutcome == none) && (r.reboundType == some "offensive") &&
  (r.secLeft == some 120)

/-- C1 counterexample: a shot event whose tag contains '3-pt' at the
non-negative distance 3 is counted in the attempts tally of two categories
(`2-pt 0-5 ft` and `3-pt <26 ft`), not exactly one. -/
theorem C1_counterexample :
    contains3 "3-pt jump shot" = true ∧ ((0 : ℚ) ≤ 3) ∧
      (assignedCats (mkShotRow "3-pt jump shot" 3)).length = 2 := by
  decide

/-- C1 (amended): shot categorization is a partition on the shot events whose
distance is consistent with their value tag — a '2-pt' tag (without '3-pt')
within 25 ft, or a '3-pt' tag (without '2-pt') beyond 15 ft.  Such an event is
counted in the attempts tally of exactly one of the seven categories.  Outside
these ranges the tag-free distance filters overlap the tag-based filters and
the event is tallied twice. -/
theorem C1_partition_of_consistent (t : String) (d : ℚ)
    (h : consistentTag t d) :
    (assignedCats (mkShotRow t d)).length = 1 := by
  obtain ⟨c, hc, -⟩ := consistent_unique (mkShotRow t d) t d rfl rfl h
  rw [assignedCats_eq, hc]
  rfl

/-- C1 witness: a 2-pt shot at 3 ft lands in exactly one category. -/
theorem C1_witness : (assignedCats (mkShotRow "2-pt layup" 3)).length = 1 :=
  C1_partition_of_consistent "2-pt layup" 3 (Or.inl ⟨by decide, by decide, by decide⟩)

/-- C2: the claim that the rebound scan handles a last-row miss explicitly is
a code bug — on a filtered table whose single row is a missed shot, the
source's unguarded `iloc[i + 1]` lookahead raises `IndexError` (modelled as
`none`) instead of returning a Rebound Tally. -/
theorem C2_last_row_miss_fault :
    optEq missRow2pt3.shotOutcome "miss" = true ∧
      calc_rebs [missRow2pt3] = none := by
  decide

/-- C4: the claim that zero total possessions surfaces as an explicit domain
error is a code bug — on a season table whose only row is the end-of-game
sentinel, total possessions is 0 and the source divides unguarded
(numpy silently yields a non-finite float, modelled as `none`), despite the
190 points present. -/
theorem C4_zero_possessions_fault :
    total_poss [endRow] = 0 ∧ pts [endRow] = 190 ∧
      calc_ppp [endRow] = none := by
  decide

/-- C5 counterexample: for a '2-pt' tag at distance 27 the rebound chain
credits `2-pt >15 ft`, but the Shot Binner counts the same shot in two
categories (`2-pt >15 ft` and `3-pt 26-30 ft`), so "the category in which the
Shot Binner counts that shot" is not unique. -/
theorem C5_counterexample :
    rebCat (some "2-pt jump shot") (some 27) = some Cat.c2p15p ∧
      assignedCats (mkShotRow "2-pt jump shot" 27) =
        [Cat.c2p15p, Cat.c3p26_30] := by
  decide

/-- C5 (amended): for every value-tagged shot the category credited by the
rebound chain is one of the categories in which the Shot Binner counts the
shot (its attempts tally there is nonzero), and when the distance is
consistent with the value tag it is exactly the binner's unique category. -/
theorem C5_reb_matches_binner (t : String) (d : ℚ) (c : Cat)
    (hshot : contains2 t = true ∨ contains3 t = true)
    (hr : rebCat (some t) (some d) = some c) :
    attempts [mkShotRow t d] c ≠ 0 ∧
      (consistentTag t d → assignedCats (mkShotRow t d) = [c]) := by
  constructor
  · have hfil : catFilter c (mkShotRow t d) = true := by
      refine rebCat_filter_core (mkShotRow t d) c d rfl ?_ hr
      intro _ _ t' ht' h2f
      cases ht'
      rcases hshot with hv | hv
      · rw [hv] at h2f
        cases h2f
      · exact hv
    rw [attempts_singleton, hfil]
    simp
  · intro hcons
    obtain ⟨c', hc', hr'⟩ := consistent_unique (mkShotRow t d) t d rfl rfl hcons
    rw [hr] at hr'
    cases hr'
    rw [assignedCats_eq, hc']

/-- C5 witness: a 3-pt shot at 28 ft; the chain credits `3-pt 26-30 ft`,
which is the binner's unique category for it. -/
theorem C5_witness :
    attempts [mkShotRow "3-pt jump shot" 28] Cat.c3p26_30 ≠ 0 ∧
      (consistentTag "3-pt jump shot" 28 →
        assignedCats (mkShotRow "3-pt jump shot" 28) = [Cat.c3p26_30]) :=
  C5_reb_matches_binner "3-pt jump shot" 28 Cat.c3p26_30 (Or.inr (by decide))
    (by decide)

/-- C6 counterexample: a filtered table holding one made 3-pt shot at 3 ft has
one row with a populated outcome, but the attempts tallies sum to 2 (the row
is double-counted by the `2-pt 0-5 ft` and `3-pt <26 ft` filters). -/
theorem C6_counterexample :
    totalAttempts [mkShotRow "3-pt jump shot" 3] = 2 ∧
      outcomeCount [mkShotRow "3-pt jump shot" 3] = 1 := by
  decide

/-- C6 (amended): the attempts tallies of the seven categories sum to the
number of rows with a populated shot outcome, provided every row with a
populated outcome is a tag/distance-consistent shot row and every row without
one has no populated distance. -/
theorem C6_attempts_sum (year : List Row)
    (h1 : ∀ r ∈ year, r.shotOutcome.isSome = true → consistentShotB r = true)
    (h2 : ∀ r ∈ year, r.shotOutcome.isSome = false → r.shotDist = none) :
    totalAttempts year = outcomeCount year := by
  induction year with
  | nil => rfl
  | cons r l ih =>
    have ihr := ih (fun x hx hox => h1 x (List.mem_cons_of_mem _ hx) hox)
      (fun x hx hox => h2 x (List.mem_cons_of_mem _ hx) hox)
    have hout : outcomeCount (r :: l) =
        outcomeCount l + if r.shotOutcome.isSome then 1 else 0 := by
      simp [outcomeCount, List.countP_cons]
    rw [totalAttempts_cons, hout, ihr]
    cases hox : r.shotOutcome.isSome with
    | false =>
      rw [catCount_eq_zero r (h2 r (List.mem_cons_self r l) hox)]
      simp
    | true =>
      obtain ⟨t, d, hty, hdi, hcons⟩ :=
        consistentShotB_spec r (h1 r (List.mem_cons_self r l) hox)
      rw [catCount_eq_one r t d hty hdi hcons]
      simp [Nat.add_comm]

/-- C6 witness: one made 2-pt shot plus one rebound-only row; the attempts sum
and the populated-outcome count are both 1. -/
theorem C6_witness : totalAttempts [shotMakeRow, orbRow45] =
    outcomeCount [shotMakeRow, orbRow45] :=
  C6_attempts_sum [shotMakeRow, orbRow45] (by decide) (by decide)

/-- C10: a filtered row whose shot distance is missing is counted in no
category — prepending it to any table leaves every category's attempts and
makes tallies unchanged, even though its outcome may be populated. -/
theorem C10_missing_distance_uncounted (r : Row) (h : r.shotDist = none)
    (c : Cat) (year : List Row) :
    attempts (r :: year) c = attempts year c ∧
      makes (r :: year) c = makes year c := by
  have hf := catFilter_dist_none r h c
  constructor
  · simp [attempts, List.filter_cons, hf]
  · simp [makes, List.filter_cons, hf]

/-- C10 witness: a missed shot with a populated outcome but no distance adds
nothing to the `2-pt 0-5 ft` tallies. -/
theorem C10_witness :
    attempts [missNoDist] Cat.c2p0_5 = attempts [] Cat.c2p0_5 ∧
      makes [missNoDist] Cat.c2p0_5 = makes [] Cat.c2p0_5 :=
  C10_missing_distance_uncounted missNoDist rfl Cat.c2p0_5 []

/-- C3 counterexample: a table with exactly 2 shot events, 1 turnover, 1 free
throw labelled '1 of 2' (here a miss), and 1 offensive rebound with 120
seconds remaining that immediately follows a missed shot (so it is not on a
free-throw miss).  The code counts 4 possession-ending events but subtracts 0
rebounds — the free-throw-miss row cancels the rebound — and yields 4
possessions, not 3. -/
theorem C3_counterexample :
    shotEv missRow2pt3 = true ∧ shotEv shotMakeRow = true ∧
      turnoverEv toRow = true ∧ ftTrip12Ev ftMissRow = true ∧
      orb120Ev orb120 = true ∧ missRow2pt3.shotOutcome = some "miss" ∧
      ([missRow2pt3, orb120, shotMakeRow, toRow, ftMissRow].countP isPossRow
        = 4) ∧
      total_orbs [missRow2pt3, orb120, shotMakeRow, toRow, ftMissRow] = 0 ∧
      total_poss [missRow2pt3, orb120, shotMakeRow, toRow, ftMissRow] = 4 := by
  decide

/-- C3 (amended): for every table containing exactly 2 shot events,
1 turnover, 1 free throw labelled '1 of 2', and 1 offensive rebound with 120
seconds remaining, and whose free throw is not a miss (the code recognises
rebounds on free-throw misses by the free-throw row itself, not by adjacency),
the possession-ending count is 4, the rebound subtraction is 1, and total
possessions is 3. -/
theorem C3_possession_scenario (l : List Row) (s1 s2 t f o : Row)
    (hp : l.Perm [s1, s2, t, f, o])
    (hs1 : shotEv s1 = true) (hs2 : shotEv s2 = true)
    (ht : turnoverEv t = true) (hf : ftTrip12Ev f = true)
    (hfm : f.freeThrowOutcome ≠ some "miss")
    (ho : orb120Ev o = true) :
    l.countP isPossRow = 4 ∧ total_orbs l = 1 ∧ total_poss l = 3 := by
  simp only [shotEv, turnoverEv, ftTrip12Ev, orb120Ev, Bool.and_eq_true,
    beq_iff_eq] at hs1 hs2 ht hf ho
  obtain ⟨⟨⟨⟨a1, a2⟩, a3⟩, a4⟩, a5⟩ := hs1
  obtain ⟨⟨⟨⟨b1, b2⟩, b3⟩, b4⟩, b5⟩ := hs2
  obtain ⟨⟨⟨⟨t1, t2⟩, t3⟩, t4⟩, t5⟩ := ht
  obtain ⟨⟨⟨f1, f2⟩, f3⟩, f4⟩ := hf
  obtain ⟨⟨⟨⟨⟨o1, o2⟩, o3⟩, o4⟩, o5⟩, o6⟩ := ho
  have hfmiss : optEq f.freeThrowOutcome "miss" = false := by
    unfold optEq
    exact beq_eq_false_iff_ne.mpr hfm
  have p1 : isPossRow s1 = true := by simp [isPossRow, a1]
  have p2 : isPossRow s2 = true := by simp [isPossRow, b1]
  have p3 : isPossRow t = true := by simp [isPossRow, t2]
  have p4 : isPossRow f = true := by simp [isPossRow, optEq, f3]
  have p5 : isPossRow o = false := by simp [isPossRow, optEq, o1, o2, o3]
  have q1 : isOrbRow s1 = false := by simp [isOrbRow, optEq, a5]
  have q2 : isOrbRow s2 = false := by simp [isOrbRow, optEq, b5]
  have q3 : isOrbRow t = false := by simp [isOrbRow, optEq, t5]
  have q4 : isOrbRow f = false := by simp [isOrbRow, optEq, f4]
  have q5 : isOrbRow o = true := by
    simp [isOrbRow, optEq, optNe0, o5, o6]
  have w1 : isFtOrbRow s1 = false := by simp [isFtOrbRow, optEq, a4]
  have w2 : isFtOrbRow s2 = false := by simp [isFtOrbRow, optEq, b4]
  have w3 : isFtOrbRow t = false := by simp [isFtOrbRow, optEq, t4]
  have w4 : isFtOrbRow f = false := by simp [isFtOrbRow, hfmiss]
  have w5 : isFtOrbRow o = false := by simp [isFtOrbRow, optEq, o4]
  have hposs : l.countP isPossRow = 4 := by
    rw [hp.countP_eq]
    simp [List.countP_cons, p1, p2, p3, p4, p5]
  have horbc : l.countP isOrbRow = 1 := by
    rw [hp.countP_eq]
    simp [List.countP_cons, q1, q2, q3, q4, q5]
  have hfto : l.countP isFtOrbRow = 0 := by
    rw [hp.countP_eq]
    simp [List.countP_cons, w1, w2, w3, w4, w5]
  refine ⟨hposs, ?_, ?_⟩
  · rw [total_orbs, horbc, hfto]
    rfl
  · rw [total_poss, total_orbs, hposs, horbc, hfto]
    rfl

/-- C3 witness: the scenario table with a made free throw, the offensive
rebound following a missed shot. -/
theorem C3_witness :
    [missRow2pt3, shotMakeRow, toRow, ftMakeRow, orb120].countP isPossRow = 4 ∧
      total_orbs [missRow2pt3, shotMakeRow, toRow, ftMakeRow, orb120] = 1 ∧
      total_poss [missRow2pt3, shotMakeRow, toRow, ftMakeRow, orb120] = 3 :=
  C3_possession_scenario _ missRow2pt3 shotMakeRow toRow ftMakeRow orb120
    (List.Perm.refl _) (by decide) (by decide) (by decide) (by decide)
    (by decide) (by decide)

/-- C7 counterexample: a missed 2-pt shot with a missing distance followed by
a qualifying offensive rebound.  The chain credits `2-pt >15 ft` with one
recovery, but that category's attempts and makes are both 0, so recoveries
exceed attempts minus makes. -/
theorem C7_counterexample :
    calc_rebs [missNoDist, orbRow45] = some ⟨0, 0, 0, 1, 0, 0, 0⟩ ∧
      (RebTally.mk 0 0 0 1 0 0 0).get Cat.c2p15p = 1 ∧
      attempts [missNoDist, orbRow45] Cat.c2p15p = 0 ∧
      makes [missNoDist, orbRow45] Cat.c2p15p = 0 ∧
      ¬((1 : Nat) ≤ 0 - 0) := by
  decide

/-- C7 (amended): for every filtered table and category, makes never exceed
attempts, unconditionally; and whenever the rebound scan completes with a
tally, that category's recoveries are at most attempts minus makes, provided
every missed-shot row has a populated distance and carries a value token on
its tag in the chain's tag-free fall-through window (15, 25]. -/
theorem C7_tally_bounds (year : List Row) (c : Cat) :
    makes year c ≤ attempts year c ∧
      ∀ rebs : RebTally, calc_rebs year = some rebs →
        (∀ r ∈ year, missRowOk r = true) →
        rebs.get c ≤ attempts year c - makes year c := by
  have hat : attempts year c = year.countP fun r => catFilter c r := by
    rw [attempts, List.countP_eq_length_filter]
  have hma : makes year c =
      year.countP fun r => catFilter c r && optEq r.shotOutcome "make" := by
    rw [makes, List.filter_filter, List.countP_eq_length_filter]
    exact congrArg List.length (List.filter_congr fun r _ => Bool.and_comm _ _)
  have hmono : makes year c ≤ attempts year c := by
    rw [hat, hma]
    refine List.countP_mono_left fun r _ hb => ?_
    simp only [Bool.and_eq_true] at hb
    exact hb.1
  refine ⟨hmono, ?_⟩
  intro rebs hr hok
  have h1 := calcRebsGo_le year RebTally.zero rebs c hr hok
  rw [RebTally.zero_get] at h1
  have h2 : (year.countP fun r => optEq r.shotOutcome "miss" && catFilter c r) ≤
      year.countP fun r => catFilter c r && !(optEq r.shotOutcome "make") := by
    refine List.countP_mono_left fun r _ hb => ?_
    simp only [Bool.and_eq_true] at hb
    obtain ⟨hmiss, hfil⟩ := hb
    have hmk : optEq r.shotOutcome "make" = false := by
      unfold optEq at hmiss ⊢
      have := beq_iff_eq.mp hmiss
      rw [this]
      decide
    rw [hfil, hmk]
    rfl
  have h3 := countP_and_not year (fun r => catFilter c r)
    (fun r => optEq r.shotOutcome "make")
  rw [hat, hma]
  omega

/-- C7 witness: one missed 2-pt shot at 3 ft and its offensive rebound; the
`2-pt 0-5 ft` category has one attempt, zero makes, one recovery. -/
theorem C7_witness :
    makes [missRow2pt3, orbRow45] Cat.c2p0_5 ≤
        attempts [missRow2pt3, orbRow45] Cat.c2p0_5 ∧
      (RebTally.mk 1 0 0 0 0 0 0).get Cat.c2p0_5 ≤
        attempts [missRow2pt3, orbRow45] Cat.c2p0_5 -
          makes [missRow2pt3, orbRow45] Cat.c2p0_5 :=
  ⟨(C7_tally_bounds [missRow2pt3, orbRow45] Cat.c2p0_5).1,
   (C7_tally_bounds [missRow2pt3, orbRow45] Cat.c2p0_5).2 ⟨1, 0, 0, 0, 0, 0, 0⟩
     (by decide) (by decide)⟩

/-- C8: for any category with nonzero attempts and nonzero recoveries and a
non-negative season PPP, the expected points with rebound value are at least
the expected points without it. -/
theorem C8_orb_value_monotone (year : List Row) (rebs : RebTally) (ppp : ℚ)
    (c : Cat) (ha : attempts year c ≠ 0) (_ho : rebs.get c ≠ 0)
    (hp : 0 ≤ ppp) :
    ∃ a b : ℚ, calc_exp_pts year c = some a ∧
      calc_exp_pts_w_orb year rebs ppp c = some b ∧ a ≤ b := by
  refine ⟨_, _, by rw [calc_exp_pts, if_neg ha], by rw [calc_exp_pts_w_orb, if_neg ha], ?_⟩
  have hnn : 0 ≤ (rebs.get c : ℚ) / (attempts year c : ℚ) * ppp := by
    apply mul_nonneg _ hp
    apply div_nonneg (Nat.cast_nonneg _) (Nat.cast_nonneg _)
  linarith

/-- C8 witness: one made 2-pt shot at 2 ft, one recovery, PPP 1. -/
theorem C8_witness :
    ∃ a b : ℚ, calc_exp_pts [shotMakeRow] Cat.c2p0_5 = some a ∧
      calc_exp_pts_w_orb [shotMakeRow] ⟨1, 0, 0, 0, 0, 0, 0⟩ 1 Cat.c2p0_5
        = some b ∧ a ≤ b :=
  C8_orb_value_monotone [shotMakeRow] ⟨1, 0, 0, 0, 0, 0, 0⟩ 1 Cat.c2p0_5
    (by decide) (by decide) (by norm_num)

/-- C9: membership in the Event Filter's output — a row survives exactly when
it is in the input, at least two of its seven projected fields are populated,
and, when a team filter other than the 'ALL' sentinel is given, its shooter or
rebounder contains the team token as a substring (missing identities never
match). -/
theorem C9_filter_membership (data : List Row) (team : String) (r : Row) :
    r ∈ clean_data data team ↔
      r ∈ data ∧ 2 ≤ popCount r ∧
        (team = "ALL" ∨
          (optContains r.shooter team || optContains r.rebounder team) = true) := by
  unfold clean_data
  by_cases h : team = "ALL"
  · simp [h, List.mem_filter]
  · simp only [if_neg h, List.mem_filter, decide_eq_true_eq]
    constructor
    · rintro ⟨⟨hmem, hpop⟩, hteam⟩
      exact ⟨hmem, hpop, Or.inr hteam⟩
    · rintro ⟨hmem, hpop, hteam | hteam⟩
      · exact absurd hteam h
      · exact ⟨⟨hmem, hpop⟩, hteam⟩

end ShotValue
